import Mathlib

/-!
Verification of the Berlin travel-map dashboard (`src/streamlit_app.py`).

The development shallowly embeds the pure logic of the application:
the spreadsheet loader `load_crime_data_for_map`, the five external-data
gateways (`get_exchange_rate`, `get_weather`, `get_osm_places`,
`search_location`, `get_gemini_response`) and the session-state handlers
(sidebar location search, recommendation submission, reply append).

External effects are made explicit parameters:
* a network call together with JSON decoding is an oracle
  `Option Json` (or `String → Option Json` when the request content
  matters); `none` means the call or the decode raised, which the
  source catches with `try`/`except`.
* the spreadsheet is the parsed table produced by
  `pd.read_excel(file, skiprows=4)`: a header row and a list of data
  rows of cells (`Sheet`).  Pandas-level corner cases that only arise
  with duplicate column labels (where pandas itself raises inside the
  `try` and the loader answers with the empty table) are outside the
  cell-level model.
* machine floats are modelled as `Rat`.

Every definition is computable, so the theorems below can be evaluated
on concrete inputs with `decide` / `rfl`.
-/

namespace BerlinApp

/-! ### String helpers mirroring the Python string operations -/

/-- Characters stripped by Python's `str.strip()` (ASCII whitespace). -/
def isPySpace (c : Char) : Bool :=
  c = ' ' || c = '\t' || c = '\n' || c = '\r' || c = '\x0b' || c = '\x0c'

/-- One character of `.replace('\n', ' ')` (a single-character needle, so the
replacement is a character map). -/
def normChar (c : Char) : Char := if c = '\n' then ' ' else c

/-- Python `str.strip()`: drop ASCII whitespace from both ends. -/
def pyStrip (l : List Char) : List Char :=
  ((l.dropWhile isPySpace).reverse.dropWhile isPySpace).reverse

/-- Header normalisation from line 60 of the source:
`str(c).replace('\n', ' ').strip()`. -/
def normalizeHeader (s : String) : String := ⟨pyStrip (s.data.map normChar)⟩

/-- Python's substring test `needle in hay` (case sensitive). -/
def strContains (hay needle : String) : Bool := decide (needle.data <:+: hay.data)

/-- Index of the last element satisfying `p` — the column-search loop in
lines 67-69 keeps overwriting its result, so the last match wins. -/
def lastIdxWhere {α : Type} (p : α → Bool) : List α → Option Nat
  | [] => none
  | a :: as =>
    match lastIdxWhere p as with
    | some i => some (i + 1)
    | none => if p a then some 0 else none

/-! ### Numeric coercion (model of `pd.to_numeric(_, errors='coerce')`) -/

/-- Value of a digit string (caller guarantees the characters are digits). -/
def natVal (l : List Char) : Nat :=
  l.foldl (fun acc c => acc * 10 + (c.toNat - '0'.toNat)) 0

/-- Unsigned decimal literal: digits with an optional single decimal point,
at least one digit overall (`"12"`, `"12."`, `".5"`, `"12.5"`).
Modelled from the spec: the numeric-string grammar accepted by the external
`pd.to_numeric` parser, restricted to plain decimal notation (scientific
notation and infinities are outside the model). -/
def parseDecimal (l : List Char) : Option Rat :=
  let ip := l.takeWhile (fun c => c ≠ '.')
  let fp := (l.dropWhile (fun c => c ≠ '.')).drop 1
  if ip.all Char.isDigit && fp.all Char.isDigit && !(ip.isEmpty && fp.isEmpty) then
    some (mkRat (natVal ip * 10 ^ fp.length + natVal fp) (10 ^ fp.length))
  else none

/-- Signed decimal literal with surrounding whitespace allowed. -/
def parseNumStr (s : String) : Option Rat :=
  match pyStrip s.data with
  | '-' :: rest => (parseDecimal rest).map (fun q => -q)
  | '+' :: rest => parseDecimal rest
  | l => parseDecimal l

/-! ### The spreadsheet loader (`load_crime_data_for_map`, lines 49-95) -/

/-- A spreadsheet cell as seen after `pd.read_excel`: a text cell, a numeric
cell, or a blank cell (pandas `NaN`). -/
inductive Cell where
  | str (s : String)
  | num (q : Rat)
  | nan
deriving DecidableEq

/-- The table produced by `pd.read_excel(file, skiprows=4)`: the header row
(already past the skipped 4-row title block) and the data rows. -/
structure Sheet where
  headers : List String
  rows : List (List Cell)

/-- One row of the loader's normalized output
(columns renamed to `District` / `Total_Crime`, line 89). -/
structure CrimeRow where
  District : String
  Total_Crime : Rat
deriving DecidableEq

/-- The fixed allow-list of the 12 Berlin districts (lines 75-79). -/
def berlin_districts : List String :=
  ["Mitte", "Friedrichshain-Kreuzberg", "Pankow", "Charlottenburg-Wilmersdorf",
   "Spandau", "Steglitz-Zehlendorf", "Tempelhof-Schöneberg", "Neukölln",
   "Treptow-Köpenick", "Marzahn-Hellersdorf", "Lichtenberg", "Reinickendorf"]

/-- The membership test `df[district_col].isin(berlin_districts)` on one cell:
only a text cell equal to one of the 12 names passes. -/
def cellInBerlin (c : Cell) : Bool :=
  match c with
  | Cell.str s => decide (s ∈ berlin_districts)
  | _ => false

/-- Text content of a cell (the loader only reads it from cells that passed
`cellInBerlin`, which are always text cells). -/
def cellToStr : Cell → String
  | Cell.str s => s
  | _ => ""

/-- The coercion `pd.to_numeric(x, errors='coerce')` on one cell: numbers pass
through, numeric strings parse, everything else becomes `NaN` (`none`). -/
def toNumeric : Cell → Option Rat
  | Cell.num q => some q
  | Cell.str s => parseNumStr s
  | Cell.nan => none

/-- Coercion followed by `.fillna(0)` (line 86). -/
def coerce0 (c : Cell) : Rat := (toNumeric c).getD 0

/-- The column search of lines 63-69 over the normalized headers: the index
of the last header containing `'Bezeichnung'`, and the index of the last
header containing both `'Straftaten'` and `'insgesamt'`. -/
def findCols (headers : List String) : Option Nat × Option Nat :=
  (lastIdxWhere (fun c => strContains c "Bezeichnung") headers,
   lastIdxWhere (fun c => strContains c "Straftaten" && strContains c "insgesamt") headers)

/-- Projection of one retained data row to the renamed two-column output
(lines 86-91): the district text and the coerced total. -/
def normalizeRow (d t : Nat) (r : List Cell) : CrimeRow :=
  { District := cellToStr (r.getD d Cell.nan),
    Total_Crime := coerce0 (r.getD t Cell.nan) }

/-- The loader `load_crime_data_for_map` (lines 49-95) on the parsed table:
normalize headers, locate the two columns by keyword (missing column ⇒ empty
result, line 71-72), filter rows to the district allow-list (line 82), coerce
the totals (line 86), rename and project (lines 89-91).  When both keyword
searches land on the same column the `rename` to two different names
collapses and the final two-column selection raises a `KeyError`, which the
surrounding `except` turns into the empty result — the `d = t` branch.
The function is total: no exception ever reaches the caller. -/
def load_crime_data_for_map (sheet : Sheet) : List CrimeRow :=
  match findCols (sheet.headers.map normalizeHeader) with
  | (some d, some t) =>
    if d = t then []
    else (sheet.rows.filter (fun r => cellInBerlin (r.getD d Cell.nan))).map (normalizeRow d t)
  | _ => []

/-! ### JSON values and the external-data gateways (lines 31-151) -/

/-- A decoded JSON value, the result of `requests.get(...).json()`. -/
inductive Json where
  | null
  | bool (b : Bool)
  | num (q : Rat)
  | str (s : String)
  | arr (elems : List Json)
  | obj (fields : List (String × Json))

/-- First binding of a key in a JSON object (dict keys are unique). -/
def lookupField (k : String) : List (String × Json) → Option Json
  | [] => none
  | (k2, v) :: rest => if k2 = k then some v else lookupField k rest

/-- Python subscription `x[k]` with a string key: succeeds exactly on an
object that has the key; every other case raises (`KeyError`/`TypeError`),
which the gateways' `except` blocks absorb. -/
def pyIndex (k : String) : Json → Option Json
  | Json.obj fs => lookupField k fs
  | _ => none

/-- Python membership `k in x` for a string `k`: key test on an object,
elementwise equality on an array, substring test on a string; on the
remaining shapes `in` raises a `TypeError` (`none`). -/
def pyContains (k : String) : Json → Option Bool
  | Json.obj fs => some (fs.any (fun kv => kv.1 == k))
  | Json.arr es => some (es.any (fun e => match e with | Json.str s => s == k | _ => false))
  | Json.str s => some (strContains s k)
  | _ => none

/-- Python `str(x)` of a decoded JSON value, as used inside f-strings.
Modelled from the spec: the exact rendering of non-string values is the
external runtime's; only string content is relied upon downstream. -/
def pyStr : Json → String
  | Json.str s => s
  | Json.num q => toString q
  | Json.bool b => if b then "True" else "False"
  | Json.null => "None"
  | Json.arr _ => "[...]"
  | Json.obj _ => "\x7b...\x7d"

/-- The lookup `data['rates']['KRW']` performed by the exchange-rate
gateway (line 36). -/
def exRateLookup (net : Option Json) : Option Json :=
  (net.bind (pyIndex "rates")).bind (pyIndex "KRW")

/-- Gateway `get_exchange_rate` (lines 31-38): the looked-up rate, or the
fixed fallback `1450.0` when the call, the decode or the lookup raises. -/
def get_exchange_rate (net : Option Json) : Json :=
  match exRateLookup net with
  | some v => v
  | none => Json.num 1450

/-- The fixed weather fallback `{"temperature": 15.0, "weathercode": 0}`
(line 47). -/
def weatherFallback : Json :=
  Json.obj [("temperature", Json.num 15), ("weathercode", Json.num 0)]

/-- Gateway `get_weather` (lines 40-47): `data['current_weather']`, or the
fixed fallback pair on any failure. -/
def get_weather (net : Option Json) : Json :=
  match net.bind (pyIndex "current_weather") with
  | some v => v
  | none => weatherFallback

/-- One point of interest assembled in the loop of lines 118-130. -/
structure Place where
  name : Json
  lat : Json
  lng : Json
  link : String

/-- The category-to-Overpass-tag dispatch of lines 102-105; an unknown
category returns `none` and the gateway answers `[]` before any request. -/
def osmTag (category : String) : Option String :=
  if category = "restaurant" then some "[\"amenity\"=\"restaurant\"]"
  else if category = "hotel" then some "[\"tourism\"=\"hotel\"]"
  else if category = "tourism" then some "[\"tourism\"~\"attraction|museum|artwork|viewpoint\"]"
  else none

/-- The Overpass query text interpolated in lines 107-113. -/
def osmQuery (tag : String) (radius_m lat lng : Rat) : String :=
  "[out:json];(node" ++ tag ++ "(around:" ++ toString radius_m ++ ","
    ++ toString lat ++ "," ++ toString lng ++ "););out body;"

/-- The Google-search link of lines 122-123:
`f"https://www.google.com/search?q=" + f"{name} Berlin".replace(" ", "+")`. -/
def googleLink (name : Json) : String :=
  "https://www.google.com/search?q=" ++ String.replace (pyStr name ++ " Berlin") " " "+"

/-- One iteration of the element loop (lines 118-130).
`none` means the iteration raised (aborting the whole gateway into its
`except` branch); `some none` means the element was skipped by the guard;
`some (some p)` means `p` was appended to the results. -/
def parseElement (e : Json) : Option (Option Place) :=
  match pyContains "tags" e with
  | none => none
  | some false => some none
  | some true =>
    match pyIndex "tags" e with
    | none => none
    | some tags =>
      match pyContains "name" tags with
      | none => none
      | some false => some none
      | some true =>
        match pyIndex "name" tags, pyIndex "lat" e, pyIndex "lon" e with
        | some name, some la, some lo =>
          some (some { name := name, lat := la, lng := lo, link := googleLink name })
        | _, _, _ => none

/-- The whole element loop: an exception in any iteration discards all the
partial results (the `except` wraps the loop). -/
def collectPlaces : List Json → Option (List Place)
  | [] => some []
  | e :: es =>
    match parseElement e with
    | none => none
    | some op =>
      match collectPlaces es with
      | none => none
      | some ps => some (match op with | some p => p :: ps | none => ps)

/-- Response processing of `get_osm_places` (lines 114-132): `data['elements']`
then the element loop; `none` is the exception path of the `try` block
(transport failure, decode failure, missing key, or iteration over a
non-array response). -/
def osmRaw (resp : Option Json) : Option (List Place) :=
  match resp with
  | none => none
  | some j =>
    match pyIndex "elements" j with
    | some (Json.arr es) => collectPlaces es
    | _ => none

/-- Gateway `get_osm_places` (lines 97-132): dispatch the category (unknown
category ⇒ `[]` with no request issued), then run the query against the
network oracle; any failure inside the `try` yields `[]`. -/
def get_osm_places (category : String) (lat lng radius_m : Rat)
    (net : String → Option Json) : List Place :=
  match osmTag category with
  | none => []
  | some tag => (osmRaw (net (osmQuery tag radius_m lat lng))).getD []

/-- Python `float(x)` on a decoded JSON value: numbers pass, numeric strings
parse, booleans become 0/1, everything else raises. -/
def jsonToFloat : Json → Option Rat
  | Json.num q => some q
  | Json.str s => parseNumStr s
  | Json.bool b => some (if b then 1 else 0)
  | _ => none

/-- Response processing of `search_location` (lines 139-142): `if res:` only
passes a non-empty array (every other shape either is falsy or raises on
`res[0]`), then `float(res[0]['lat'])`, `float(res[0]['lon'])` and
`res[0]['display_name']`; any raise falls to the none triple. -/
def searchRaw (resp : Option Json) : Option (Rat × Rat × Json) :=
  match resp with
  | some (Json.arr (h :: _)) =>
    match pyIndex "lat" h, pyIndex "lon" h, pyIndex "display_name" h with
    | some la, some lo, some dn =>
      match jsonToFloat la, jsonToFloat lo with
      | some fla, some flo => some (fla, flo, dn)
      | _, _ => none
    | _, _, _ => none
  | _ => none

/-- Gateway `search_location` (lines 134-143): geocode a free-text query;
the all-`none` triple on empty results and on every failure. -/
def search_location (query : String) (net : String → Option Json) :
    Option Rat × Option Rat × Option Json :=
  match searchRaw (net query) with
  | some (la, lo, dn) => (some la, some lo, some dn)
  | none => (none, none, none)

/-- Gateway `get_gemini_response` (lines 145-151): a fixed message when the
API key is empty (`if not GEMINI_API_KEY`), the model's text on success, and
the fixed error string `"AI 오류"` on any failure. -/
def get_gemini_response (apiKey : String) (net : String → Option String)
    (prompt : String) : String :=
  if apiKey = "" then "API 키가 필요합니다."
  else
    match net prompt with
    | some t => t
    | none => "AI 오류"

/-! ### Session state: sidebar search and the community board -/

/-- The search marker dict `{"lat": lat, "lng": lng, "name": name}`
(line 187). -/
structure SearchMarker where
  lat : Rat
  lng : Rat
  name : Option Json

/-- The map slice of the session state: `map_center` (line 163) and
`search_marker` (line 164). -/
structure ViewState where
  map_center : Rat × Rat
  search_marker : Option SearchMarker

/-- The initial session state `[52.5200, 13.4050]`, no marker
(lines 163-164). -/
def initial_view_state : ViewState :=
  { map_center := (mkRat 5252 100, mkRat 13405 1000), search_marker := none }

/-- The sidebar search handler (lines 183-188): `if search_query:` skips the
empty string (but runs on whitespace-only input, which is truthy); the query
is suffixed with `" Berlin"`; `if lat:` accepts only a result whose latitude
is neither `None` nor `0.0`, and then overwrites both the map center and the
search marker. -/
def sidebar_search (state : ViewState) (search_query : String)
    (net : String → Option Json) : ViewState :=
  if search_query = "" then state
  else
    match search_location (search_query ++ " Berlin") net with
    | (some lat, some lng, name) =>
      if lat = 0 then state
      else { state with
              map_center := (lat, lng),
              search_marker := some { lat := lat, lng := lng, name := name } }
    | _ => state

/-- One community recommendation `{"place": .., "desc": .., "replies": ..}`
(line 286). -/
structure Recommendation where
  place : String
  desc : String
  replies : List String
deriving DecidableEq, Inhabited

/-- The submission handler (line 286): `insert(0, ...)` prepends a fresh
recommendation with an empty reply list. -/
def submit_recommendation (recs : List Recommendation) (place desc : String) :
    List Recommendation :=
  { place := place, desc := desc, replies := [] } :: recs

/-- The reply handler for the recommendation at position `i`
(line 303): `rec['replies'].append(r_text)` mutates that element in place
and leaves every other element untouched.  The button for index `i` exists
only while `i` is in range. -/
def add_reply : List Recommendation → Nat → String → List Recommendation
  | [], _, _ => []
  | r :: rs, 0, t => { r with replies := r.replies ++ [t] } :: rs
  | r :: rs, i + 1, t => r :: add_reply rs i t

/-! ### Helper lemmas

Header normalisation (newline replacement and stripping) cannot create an
occurrence of a keyword fragment that contains neither a space nor a
newline, so a fragment absent from a raw header is also absent from the
normalised header. -/

lemma dropWhile_exists_append (p : Char → Bool) (l : List Char) :
    ∃ s, s ++ l.dropWhile p = l := by
  induction l with
  | nil => exact ⟨[], rfl⟩
  | cons a t ih =>
    by_cases h : p a = true
    · obtain ⟨s, hs⟩ := ih
      exact ⟨a :: s, by simp [List.dropWhile_cons, h, hs]⟩
    · exact ⟨[], by simp [List.dropWhile_cons, h]⟩

lemma pyStrip_exists (l : List Char) : ∃ s t, s ++ pyStrip l ++ t = l := by
  obtain ⟨s1, hs1⟩ := dropWhile_exists_append isPySpace l
  obtain ⟨s2, hs2⟩ := dropWhile_exists_append isPySpace (l.dropWhile isPySpace).reverse
  refine ⟨s1, s2.reverse, ?_⟩
  have h2 : pyStrip l ++ s2.reverse = l.dropWhile isPySpace := by
    have h3 := congrArg List.reverse hs2
    simpa [pyStrip, List.reverse_append] using h3
  calc s1 ++ pyStrip l ++ s2.reverse
      = s1 ++ (pyStrip l ++ s2.reverse) := by rw [List.append_assoc]
    _ = s1 ++ l.dropWhile isPySpace := by rw [h2]
    _ = l := hs1

lemma map_normChar_split (l s t : List Char) (h : l.map normChar = s ++ t) :
    ∃ u v, l = u ++ v ∧ u.map normChar = s ∧ v.map normChar = t := by
  induction s generalizing l with
  | nil => exact ⟨[], l, rfl, rfl, by simpa using h⟩
  | cons b bs ih =>
    cases l with
    | nil => simp at h
    | cons a l2 =>
      rw [List.map_cons, List.cons_append] at h
      obtain ⟨hb, h2⟩ := List.cons.inj h
      obtain ⟨u, v, huv, hu, hv⟩ := ih l2 h2
      exact ⟨a :: u, v, by rw [huv, List.cons_append], by rw [List.map_cons, hb, hu], hv⟩

lemma map_normChar_eq_self (v n : List Char) (hn : ' ' ∉ n)
    (h : v.map normChar = n) : v = n := by
  induction v generalizing n with
  | nil => simpa using h
  | cons a t ih =>
    cases n with
    | nil => simp at h
    | cons b bs =>
      rw [List.map_cons] at h
      obtain ⟨hb, h2⟩ := List.cons.inj h
      have hbs : ' ' ∉ bs := fun hm => hn (List.mem_cons_of_mem b hm)
      have hbn : b ≠ ' ' := by
        intro e
        apply hn
        rw [← e]
        exact List.mem_cons_self b bs
      have ha : a = b := by
        by_cases hA : a = '\n'
        · exfalso
          apply hbn
          rw [← hb]
          simp [normChar, hA]
        · rw [← hb]
          simp [normChar, hA]
      rw [ha, ih bs hbs h2]

lemma strContains_of_normalized (raw frag : String) (hsp : ' ' ∉ frag.data)
    (h : strContains (normalizeHeader raw) frag = true) :
    strContains raw frag = true := by
  apply decide_eq_true
  obtain ⟨s, t, hst⟩ := of_decide_eq_true h
  have hdata : (normalizeHeader raw).data = pyStrip (raw.data.map normChar) := rfl
  rw [hdata] at hst
  obtain ⟨s2, t2, hstrip⟩ := pyStrip_exists (raw.data.map normChar)
  rw [← hst] at hstrip
  have hre : raw.data.map normChar = (s2 ++ s) ++ (frag.data ++ (t ++ t2)) := by
    rw [← hstrip]
    simp [List.append_assoc]
  obtain ⟨u, v, huv, hu, hv⟩ :=
    map_normChar_split raw.data (s2 ++ s) (frag.data ++ (t ++ t2)) hre
  obtain ⟨w, x, hwx, hw, hx⟩ := map_normChar_split v frag.data (t ++ t2) hv
  have hwf : w = frag.data := map_normChar_eq_self w frag.data hsp hw
  refine ⟨u, x, ?_⟩
  rw [huv, hwx, hwf]
  simp [List.append_assoc]

lemma strContains_normalize_false (raw frag : String) (hsp : ' ' ∉ frag.data)
    (h : strContains raw frag = false) :
    strContains (normalizeHeader raw) frag = false := by
  cases hc : strContains (normalizeHeader raw) frag with
  | false => rfl
  | true =>
    rw [strContains_of_normalized raw frag hsp hc] at h
    exact Bool.noConfusion h

lemma lastIdxWhere_eq_none {α : Type} (p : α → Bool) (l : List α)
    (h : ∀ a ∈ l, p a = false) : lastIdxWhere p l = none := by
  induction l with
  | nil => rfl
  | cons a t ih =>
    unfold lastIdxWhere
    rw [ih (fun x hx => h x (List.mem_cons_of_mem a hx))]
    simp [h a (List.mem_cons_self a t)]

lemma load_eq_some_some (sheet : Sheet) (d t : Nat)
    (hfc : findCols (sheet.headers.map normalizeHeader) = (some d, some t))
    (hdt : d ≠ t) :
    load_crime_data_for_map sheet
      = (sheet.rows.filter (fun r => cellInBerlin (r.getD d Cell.nan))).map
          (normalizeRow d t) := by
  unfold load_crime_data_for_map
  rw [hfc]
  show (if d = t then []
      else (sheet.rows.filter (fun r => cellInBerlin (r.getD d Cell.nan))).map
        (normalizeRow d t)) = _
  rw [if_neg hdt]

/-! ### Claims about the spreadsheet loader -/

/-- Claim C1: for every parsed spreadsheet in which no column header contains
the district keyword fragment `'Bezeichnung'`, or no column header contains
both total-offenses fragments `'Straftaten'` and `'insgesamt'`, the loader
returns exactly the empty table.  (The loader is a total Lean function — a
list of normalized rows for every input — so no exception reaches the
caller.) -/
theorem c1_loader_missing_column_empty (sheet : Sheet)
    (h : (∀ hd ∈ sheet.headers, strContains hd "Bezeichnung" = false)
       ∨ (∀ hd ∈ sheet.headers,
            strContains hd "Straftaten" = false ∨ strContains hd "insgesamt" = false)) :
    load_crime_data_for_map sheet = [] := by
  unfold load_crime_data_for_map findCols
  rcases h with h | h
  · have h1 : lastIdxWhere (fun c => strContains c "Bezeichnung")
        (sheet.headers.map normalizeHeader) = none := by
      apply lastIdxWhere_eq_none
      intro x hx
      obtain ⟨raw, hraw, rfl⟩ := List.mem_map.mp hx
      exact strContains_normalize_false raw "Bezeichnung" (by decide) (h raw hraw)
    rw [h1]
  · have h2 : lastIdxWhere
        (fun c => strContains c "Straftaten" && strContains c "insgesamt")
        (sheet.headers.map normalizeHeader) = none := by
      apply lastIdxWhere_eq_none
      intro x hx
      obtain ⟨raw, hraw, rfl⟩ := List.mem_map.mp hx
      rcases h raw hraw with hc | hc
      · rw [strContains_normalize_false raw "Straftaten" (by decide) hc]
        rfl
      · rw [strContains_normalize_false raw "insgesamt" (by decide) hc]
        simp
    rw [h2]
    cases lastIdxWhere (fun c => strContains c "Bezeichnung")
      (sheet.headers.map normalizeHeader) <;> rfl

/-- Concrete input for the C1 witness: neither keyword occurs in a header. -/
def c1Sheet : Sheet :=
  Sheet.mk ["Region", "Count"] [[Cell.str "Mitte", Cell.num 3]]

/-- Witness for C1: a sheet with no recognizable columns loads to the empty
table. -/
theorem c1_witness :
    (∀ hd ∈ c1Sheet.headers, strContains hd "Bezeichnung" = false)
    ∧ load_crime_data_for_map c1Sheet = [] :=
  ⟨by decide, c1_loader_missing_column_empty c1Sheet (Or.inl (by decide))⟩

/-- Claim C2: on the documented scenario sheet — header row
`"Bezeichnung (Bezirk)"` / `"Straftaten -insgesamt-"` after the skipped
title block, data rows `("Mitte", "12345")` and `("Berlin total", "99999")` —
the loader's output is exactly the one-row table
`[{District := "Mitte", Total_Crime := 12345.0}]`; the `"Berlin total"` row
is dropped by the allow-list filter. -/
theorem c2_scenario_mitte :
    load_crime_data_for_map
      (Sheet.mk ["Bezeichnung (Bezirk)", "Straftaten -insgesamt-"]
        [[Cell.str "Mitte", Cell.str "12345"],
         [Cell.str "Berlin total", Cell.str "99999"]])
      = [{ District := "Mitte", Total_Crime := 12345 }] := by decide

/-- Claim C3: every row of the loader's normalized output has a `District`
value that is a member of the fixed 12-name allow-list; equivalently, a data
row whose district cell is not one of the 12 Berlin district names never
contributes an output row. -/
theorem c3_output_district_in_allowlist (sheet : Sheet) (r : CrimeRow)
    (hr : r ∈ load_crime_data_for_map sheet) : r.District ∈ berlin_districts := by
  unfold load_crime_data_for_map at hr
  rcases hfc : findCols (sheet.headers.map normalizeHeader) with ⟨od, ot⟩
  rw [hfc] at hr
  cases od with
  | none => exact absurd (hr : r ∈ ([] : List CrimeRow)) (List.not_mem_nil r)
  | some d =>
    cases ot with
    | none => exact absurd (hr : r ∈ ([] : List CrimeRow)) (List.not_mem_nil r)
    | some t =>
      have hr2 : r ∈ (if d = t then ([] : List CrimeRow)
          else (sheet.rows.filter (fun row => cellInBerlin (row.getD d Cell.nan))).map
            (normalizeRow d t)) := hr
      by_cases hdt : d = t
      · rw [if_pos hdt] at hr2
        exact absurd hr2 (List.not_mem_nil r)
      · rw [if_neg hdt] at hr2
        obtain ⟨row, hrow, hr_eq⟩ := List.mem_map.mp hr2
        have hfil : cellInBerlin (row.getD d Cell.nan) = true :=
          (List.mem_filter.mp hrow).2
        rw [← hr_eq]
        show cellToStr (row.getD d Cell.nan) ∈ berlin_districts
        cases hcell : row.getD d Cell.nan with
        | str s =>
          rw [hcell] at hfil
          exact of_decide_eq_true hfil
        | num q =>
          rw [hcell] at hfil
          exact Bool.noConfusion hfil
        | nan =>
          rw [hcell] at hfil
          exact Bool.noConfusion hfil

/-- Concrete input for the C3 witness. -/
def c3Sheet : Sheet :=
  Sheet.mk ["Bezeichnung (Bezirk)", "Straftaten -insgesamt-"]
    [[Cell.str "Pankow", Cell.num 7]]

/-- Witness for C3: the row produced from the `"Pankow"` data row carries a
district from the allow-list. -/
theorem c3_witness :
    ({ District := "Pankow", Total_Crime := 7 } : CrimeRow) ∈ load_crime_data_for_map c3Sheet
    ∧ ({ District := "Pankow", Total_Crime := 7 } : CrimeRow).District ∈ berlin_districts :=
  ⟨by decide, c3_output_district_in_allowlist c3Sheet _ (by decide)⟩

/-- Claim C4: for every retained data row (the located district and total
columns are distinct positions, the district cell passes the allow-list
filter) whose total-offenses cell fails numeric coercion, the loader's
output contains the corresponding normalized row and its `Total_Crime`
value is `0`. -/
theorem c4_coercion_failure_yields_zero (sheet : Sheet) (d t : Nat) (row : List Cell)
    (hfc : findCols (sheet.headers.map normalizeHeader) = (some d, some t))
    (hdt : d ≠ t)
    (hrow : row ∈ sheet.rows)
    (hb : cellInBerlin (row.getD d Cell.nan) = true)
    (hfail : toNumeric (row.getD t Cell.nan) = none) :
    normalizeRow d t row ∈ load_crime_data_for_map sheet
    ∧ (normalizeRow d t row).Total_Crime = 0 := by
  constructor
  · rw [load_eq_some_some sheet d t hfc hdt]
    exact List.mem_map_of_mem _ (List.mem_filter.mpr ⟨hrow, hb⟩)
  · show coerce0 (row.getD t Cell.nan) = 0
    unfold coerce0
    rw [hfail]
    rfl

/-- Concrete input for the C4 witness: the total cell `"n/a"` is a
non-numeric string. -/
def c4Sheet : Sheet :=
  Sheet.mk ["Bezeichnung (Bezirk)", "Straftaten -insgesamt-"]
    [[Cell.str "Spandau", Cell.str "n/a"]]

/-- The single data row of `c4Sheet`. -/
def c4Row : List Cell := [Cell.str "Spandau", Cell.str "n/a"]

/-- Witness for C4: the `"Spandau"` row with unparseable total appears in the
output with `Total_Crime = 0`. -/
theorem c4_witness :
    toNumeric (c4Row.getD 1 Cell.nan) = none
    ∧ normalizeRow 0 1 c4Row ∈ load_crime_data_for_map c4Sheet
    ∧ (normalizeRow 0 1 c4Row).Total_Crime = 0 :=
  ⟨by decide,
   (c4_coercion_failure_yields_zero c4Sheet 0 1 c4Row (by decide) (by decide)
      (by decide) (by decide) (by decide)).1,
   (c4_coercion_failure_yields_zero c4Sheet 0 1 c4Row (by decide) (by decide)
      (by decide) (by decide) (by decide)).2⟩

/-- Concrete input refuting claim C5 as stated: the loader neither
deduplicates districts nor clamps negative totals. -/
def c5Sheet : Sheet :=
  Sheet.mk ["Bezeichnung (Bezirk)", "Straftaten -insgesamt-"]
    [[Cell.str "Mitte", Cell.str "-5"], [Cell.str "Mitte", Cell.num 3]]

/-- Counterexample for claim C5: on `c5Sheet` (two `"Mitte"` rows, one with
total `"-5"`) the output is `[⟨"Mitte", -5⟩, ⟨"Mitte", 3⟩]`, so neither
"every `Total_Crime` is non-negative" nor "at most one row per district"
holds for the loader's output. -/
theorem c5_counterexample :
    ¬ ((∀ r ∈ load_crime_data_for_map c5Sheet, 0 ≤ r.Total_Crime)
       ∧ ((load_crime_data_for_map c5Sheet).map (fun r => r.District)).Nodup) := by
  decide

/-- Claim C5 (amended): the invariant holds exactly under the input-side
conditions the code relies on — every retained row's coerced total is
non-negative and the retained rows carry pairwise distinct district names.
Under those hypotheses every output `Total_Crime` is non-negative and the
output has at most one row per district. -/
theorem c5_invariant_amended (sheet : Sheet) (d t : Nat)
    (hfc : findCols (sheet.headers.map normalizeHeader) = (some d, some t))
    (hnn : ∀ row ∈ sheet.rows, 0 ≤ coerce0 (row.getD t Cell.nan))
    (huq : ((sheet.rows.filter (fun r => cellInBerlin (r.getD d Cell.nan))).map
        (fun r => cellToStr (r.getD d Cell.nan))).Nodup) :
    (∀ r ∈ load_crime_data_for_map sheet, 0 ≤ r.Total_Crime)
    ∧ ((load_crime_data_for_map sheet).map (fun r => r.District)).Nodup := by
  by_cases hdt : d = t
  · have hload : load_crime_data_for_map sheet = [] := by
      unfold load_crime_data_for_map
      rw [hfc]
      show (if d = t then []
          else (sheet.rows.filter (fun r => cellInBerlin (r.getD d Cell.nan))).map
            (normalizeRow d t)) = _
      rw [if_pos hdt]
    rw [hload]
    exact ⟨fun r hr => absurd hr (List.not_mem_nil r), List.nodup_nil⟩
  · rw [load_eq_some_some sheet d t hfc hdt]
    constructor
    · intro r hr
      obtain ⟨row, hrow, hr_eq⟩ := List.mem_map.mp hr
      rw [← hr_eq]
      show 0 ≤ coerce0 (row.getD t Cell.nan)
      exact hnn row (List.mem_filter.mp hrow).1
    · rw [List.map_map]
      exact huq

/-- Concrete input for the C5 witness: distinct districts, non-negative
totals (the `"Berlin total"` row is filtered out anyway). -/
def c5wSheet : Sheet :=
  Sheet.mk ["Bezeichnung (Bezirk)", "Straftaten -insgesamt-"]
    [[Cell.str "Pankow", Cell.num 5], [Cell.str "Berlin total", Cell.num 9],
     [Cell.str "Spandau", Cell.num 2]]

/-- Witness for C5 (amended): on `c5wSheet` the hypotheses hold and the
output satisfies the invariant. -/
theorem c5_witness :
    findCols (c5wSheet.headers.map normalizeHeader) = (some 0, some 1)
    ∧ (∀ row ∈ c5wSheet.rows, 0 ≤ coerce0 (row.getD 1 Cell.nan))
    ∧ ((c5wSheet.rows.filter (fun r => cellInBerlin (r.getD 0 Cell.nan))).map
        (fun r => cellToStr (r.getD 0 Cell.nan))).Nodup
    ∧ ((∀ r ∈ load_crime_data_for_map c5wSheet, 0 ≤ r.Total_Crime)
       ∧ ((load_crime_data_for_map c5wSheet).map (fun r => r.District)).Nodup) :=
  ⟨by decide, by decide, by decide,
   c5_invariant_amended c5wSheet 0 1 (by decide) (by decide) (by decide)⟩

/-! ### Claims about the gateways and the session state -/

/-- Claim C6: every gateway answers exactly its documented fallback whenever
the network call, the JSON decode, or the response processing fails — the
`none` outcome of the respective oracle/lookup — and, being a total
function, never lets an exception reach the caller: `1450.0` for the
exchange rate, `{temperature: 15.0, weathercode: 0}` for the weather, `[]`
for the place search, the none triple for geocoding, and the fixed error
string `"AI 오류"` for the assistant (given a configured key). -/
theorem c6_gateway_fallbacks :
    (∀ net : Option Json, exRateLookup net = none →
        get_exchange_rate net = Json.num 1450)
    ∧ (∀ net : Option Json, net.bind (pyIndex "current_weather") = none →
        get_weather net = weatherFallback)
    ∧ (∀ (category tag : String) (lat lng radius_m : Rat) (net : String → Option Json),
        osmTag category = some tag →
        osmRaw (net (osmQuery tag radius_m lat lng)) = none →
        get_osm_places category lat lng radius_m net = [])
    ∧ (∀ (query : String) (net : String → Option Json),
        searchRaw (net query) = none →
        search_location query net = (none, none, none))
    ∧ (∀ (apiKey prompt : String) (net : String → Option String),
        apiKey ≠ "" → net prompt = none →
        get_gemini_response apiKey net prompt = "AI 오류") := by
  refine ⟨?_, ?_, ?_, ?_, ?_⟩
  · intro net h
    unfold get_exchange_rate
    rw [h]
  · intro net h
    unfold get_weather
    rw [h]
  · intro category tag lat lng radius_m net htag h
    unfold get_osm_places
    rw [htag]
    show (osmRaw (net (osmQuery tag radius_m lat lng))).getD [] = []
    rw [h]
    rfl
  · intro query net h
    unfold search_location
    rw [h]
  · intro apiKey prompt net hk h
    unfold get_gemini_response
    rw [if_neg hk, h]

/-- Witness for C6: each gateway under a dead network yields its fallback. -/
theorem c6_witness :
    get_exchange_rate none = Json.num 1450
    ∧ get_weather none = weatherFallback
    ∧ get_osm_places "restaurant" 1 2 3000 (fun _ => none) = []
    ∧ search_location "Kreuzberg Berlin" (fun _ => none) = (none, none, none)
    ∧ get_gemini_response "key" (fun _ => none) "hello" = "AI 오류" :=
  ⟨c6_gateway_fallbacks.1 none rfl,
   c6_gateway_fallbacks.2.1 none rfl,
   c6_gateway_fallbacks.2.2.1 "restaurant" "[\"amenity\"=\"restaurant\"]" 1 2 3000
     (fun _ => none) rfl rfl,
   c6_gateway_fallbacks.2.2.2.1 "Kreuzberg Berlin" (fun _ => none) rfl,
   c6_gateway_fallbacks.2.2.2.2 "key" "hello" (fun _ => none) (by decide) rfl⟩

/-- A network oracle that geocodes every query to a hit on Berlin, as the
real geocoder does for the whitespace-padded query `"  Berlin"`. -/
def c7Net : String → Option Json := fun _ =>
  some (Json.arr [Json.obj [("lat", Json.str "52.5"), ("lon", Json.str "13.4"),
    ("display_name", Json.str "Berlin, Deutschland")]])

/-- Counterexample for claim C7: for the whitespace-only query `" "` the
sidebar handler does run (`if search_query:` is true for a non-empty
string), geocodes `"  Berlin"`, and under an oracle that returns a hit the
triple is not the none triple (and the map center and marker are in fact
overwritten) — so the claim fails for whitespace queries. -/
theorem c7_counterexample :
    ¬ (search_location (" " ++ " Berlin") c7Net = (none, none, none)
       ∧ sidebar_search initial_view_state " " c7Net = initial_view_state) := by
  rintro ⟨h1, -⟩
  have h2 := congrArg Prod.fst h1
  exact absurd h2 (by decide)

/-- Claim C7 (amended): for the empty query the sidebar handler is skipped
and the state is untouched; for any query (in particular whitespace-only
ones) whose geocode lookup yields no result — network failure, decode
failure or an empty result list — the triple is `(none, none, none)` and
the map center and search marker are unchanged. -/
theorem c7_search_amended (state : ViewState) (net : String → Option Json) (q : String) :
    sidebar_search state "" net = state
    ∧ (searchRaw (net (q ++ " Berlin")) = none →
        search_location (q ++ " Berlin") net = (none, none, none)
        ∧ sidebar_search state q net = state) := by
  constructor
  · unfold sidebar_search
    rw [if_pos rfl]
  · intro h
    have htriple : search_location (q ++ " Berlin") net = (none, none, none) := by
      unfold search_location
      rw [h]
    refine ⟨htriple, ?_⟩
    unfold sidebar_search
    by_cases hq : q = ""
    · rw [if_pos hq]
    · rw [if_neg hq, htriple]

/-- Witness for C7 (amended): whitespace query, dead network — none triple
and untouched state. -/
theorem c7_witness :
    search_location (" " ++ " Berlin") (fun _ => none) = (none, none, none)
    ∧ sidebar_search initial_view_state " " (fun _ => none) = initial_view_state :=
  (c7_search_amended initial_view_state (fun _ => none) " ").2 rfl

/-- Claim C8: submitting `place = "Alexanderplatz"`, `desc = "Great views"`
prepends exactly that recommendation with an empty reply list, and every
previously present recommendation follows it unchanged. -/
theorem c8_submit_prepends (recs : List Recommendation) :
    submit_recommendation recs "Alexanderplatz" "Great views"
      = { place := "Alexanderplatz", desc := "Great views", replies := [] } :: recs := rfl

lemma add_reply_length (recs : List Recommendation) (i : Nat) (t : String) :
    (add_reply recs i t).length = recs.length := by
  induction recs generalizing i with
  | nil => rfl
  | cons r rs ih =>
    cases i with
    | zero => rfl
    | succ j => simp [add_reply, ih j]

/-- Claim C9: appending the reply `"Agreed!"` to a recommendation whose
reply list is empty yields `replies = ["Agreed!"]`, leaves its `place` and
`desc` unchanged, and modifies no other recommendation of the board. -/
theorem c9_reply_appended (recs : List Recommendation) (i : Nat)
    (hi : i < recs.length)
    (hrep : (recs.getD i default).replies = []) :
    ((add_reply recs i "Agreed!").getD i default).replies = ["Agreed!"]
    ∧ ((add_reply recs i "Agreed!").getD i default).place = (recs.getD i default).place
    ∧ ((add_reply recs i "Agreed!").getD i default).desc = (recs.getD i default).desc
    ∧ ∀ j : Nat, j ≠ i →
        (add_reply recs i "Agreed!").getD j default = recs.getD j default := by
  induction recs generalizing i with
  | nil => exact absurd hi (Nat.not_lt_zero i)
  | cons r rs ih =>
    cases i with
    | zero =>
      have hrep2 : r.replies = [] := hrep
      refine ⟨?_, rfl, rfl, ?_⟩
      · show r.replies ++ ["Agreed!"] = ["Agreed!"]
        rw [hrep2]
        rfl
      · intro j hj
        cases j with
        | zero => exact absurd rfl hj
        | succ k => rfl
    | succ n =>
      have hi2 : n < rs.length := by simpa using hi
      have hrep2 : (rs.getD n default).replies = [] := hrep
      obtain ⟨g1, g2, g3, g4⟩ := ih n hi2 hrep2
      refine ⟨g1, g2, g3, ?_⟩
      intro j hj
      cases j with
      | zero => rfl
      | succ k => exact g4 k (fun e => hj (congrArg Nat.succ e))

/-- Concrete board for the C9 witness. -/
def c9Board : List Recommendation :=
  [{ place := "Alexanderplatz", desc := "Great views", replies := [] },
   { place := "Mauerpark", desc := "Flea market", replies := ["+1"] }]

/-- Witness for C9: replying to the first board entry. -/
theorem c9_witness :
    ((add_reply c9Board 0 "Agreed!").getD 0 default).replies = ["Agreed!"]
    ∧ (add_reply c9Board 0 "Agreed!").getD 1 default = c9Board.getD 1 default :=
  ⟨(c9_reply_appended c9Board 0 (by decide) (by decide)).1,
   (c9_reply_appended c9Board 0 (by decide) (by decide)).2.2.2 1 (by decide)⟩

/-- Claim C10: for every category outside `{"restaurant", "hotel",
"tourism"}` the place-search gateway answers `[]` for every network oracle:
the category dispatch returns before a request is built, so the result does
not depend on the network at all. -/
theorem c10_unknown_category_empty (category : String) (lat lng radius_m : Rat)
    (net : String → Option Json)
    (h1 : category ≠ "restaurant") (h2 : category ≠ "hotel")
    (h3 : category ≠ "tourism") :
    get_osm_places category lat lng radius_m net = [] := by
  unfold get_osm_places osmTag
  rw [if_neg h1, if_neg h2, if_neg h3]

/-- Witness for C10: the category `"cafe"` yields `[]` even under an oracle
that would answer every request. -/
theorem c10_witness :
    get_osm_places "cafe" 1 2 3000 (fun _ => some (Json.arr [])) = [] :=
  c10_unknown_category_empty "cafe" 1 2 3000 (fun _ => some (Json.arr []))
    (by decide) (by decide) (by decide)

end BerlinApp
